import Mathlib

/-!
Shallow embedding of the ili9341 display-driver crate (src/lib.rs, src/spi.rs)
together with theorems checking its natural-language specification.

Conventions of the embedding:
* machine integers are `Nat` (unsigned) or `Int` (the i32 pixel coordinates),
  with explicit `% 2^w` where the source truncates;
* bus traffic is an explicit event list; fallible operations return an
  `Option` error next to their result;
* each Rust function keeps its source name where Lean allows it.
-/

namespace Ili9341

/-! ### Bus events (trait Interface, src/lib.rs) -/

/-- One call on the `Interface` trait: `write(command, data)` sends a command
with 8-bit arguments, `write_iter(command, words)` a command with a stream of
16-bit words. -/
inductive BusEv where
  | write (command : Nat) (data : List Nat)
  | writeIter (command : Nat) (words : List Nat)
  deriving DecidableEq, Repr

/-- `(v >> 8) as u8` on a `u16` value. -/
def beHi (v : Nat) : Nat := v / 256 % 256

/-- `(v & 0xff) as u8`. -/
def beLo (v : Nat) : Nat := v % 256

/-- `u16::to_be_bytes`: big-endian byte pair of a 16-bit word. -/
def beBytes (w : Nat) : List Nat := [beHi w, beLo w]

/-! ### Orientation and display state (src/lib.rs) -/

/-- `const WIDTH: usize = 240`. -/
def WIDTH : Nat := 240

/-- `const HEIGHT: usize = 320`. -/
def HEIGHT : Nat := 320

/-- enum Orientation. -/
inductive Orientation where
  | Portrait
  | PortraitFlipped
  | Landscape
  | LandscapeFlipped
  deriving DecidableEq, Repr

/-- The mutable display state of `Ili9341`: current logical dimensions. -/
structure DispState where
  width : Nat
  height : Nat
  deriving DecidableEq, Repr

/-- Whether an orientation is landscape-class (width > height relative to the
native portrait panel). -/
def landClass : Orientation → Bool
  | .Landscape => true
  | .LandscapeFlipped => true
  | _ => false

/-- `Ili9341::set_orientation`: assigns `width`/`height` and issues the
memory-access-control command (opcode 0x36) with the mode's register byte,
exactly as in the four match arms of the source. -/
def set_orientation (_s : DispState) (mode : Orientation) : DispState × BusEv :=
  match mode with
  | .Portrait => (⟨WIDTH, HEIGHT⟩, .write 0x36 [0x40 ||| 0x08])
  | .Landscape => (⟨HEIGHT, WIDTH⟩, .write 0x36 [0x20 ||| 0x08])
  | .PortraitFlipped => (⟨WIDTH, HEIGHT⟩, .write 0x36 [0x80 ||| 0x08])
  | .LandscapeFlipped => (⟨HEIGHT, WIDTH⟩, .write 0x36 [0x40 ||| 0x80 ||| 0x20 ||| 0x08])

/-- Dimensions after a whole sequence of `set_orientation` calls. -/
def applySeq (s : DispState) (ms : List Orientation) : DispState :=
  ms.foldl (fun st m => (set_orientation st m).fst) s

/-- Landscape-class of a stored dimension pair (width strictly greater than
height). -/
def dimsClass (s : DispState) : Bool := decide (s.height < s.width)

/-- Swap stored width and height. -/
def swapDims (s : DispState) : DispState := ⟨s.height, s.width⟩

/-! ### Initialisation trace (Ili9341::new, Ili9341::hard_reset) -/

/-- One observable event during construction: a reset-pin level change, a
blocking delay, or a command with its argument bytes. -/
inductive InitEv where
  | resetPin (level : Bool)
  | delayMs (ms : Nat)
  | cmd (op : Nat) (args : List Nat)
  deriving DecidableEq, Repr

/-- `Ili9341::hard_reset`: high, low, high on the reset pin with 200 ms
delays after each edge. -/
def hard_reset : List InitEv :=
  [.resetPin true, .delayMs 200, .resetPin false, .delayMs 200,
   .resetPin true, .delayMs 200]

/-- The full event trace of `Ili9341::new` on the success path, transcribed
command by command from the source. -/
def newTrace : List InitEv :=
  hard_reset ++
  [.cmd 0x01 [],                                -- SoftwareReset
   .delayMs 200,
   .cmd 0xcb [0x39, 0x2c, 0x00, 0x34, 0x02],    -- PowerControlA
   .cmd 0xcf [0x00, 0xc1, 0x30],                -- PowerControlB
   .cmd 0xe8 [0x85, 0x00, 0x78],                -- DriverTimingControlA
   .cmd 0xea [0x00, 0x00],                      -- DriverTimingControlB
   .cmd 0xed [0x64, 0x03, 0x12, 0x81],          -- PowerOnSequenceControl
   .cmd 0xf7 [0x20],                            -- PumpRatioControl
   .cmd 0xc0 [0x23],                            -- PowerControl1
   .cmd 0xc1 [0x10],                            -- PowerControl2
   .cmd 0xc5 [0x3e, 0x28],                      -- VCOMControl1
   .cmd 0xc7 [0x86],                            -- VCOMControl2
   .cmd 0x36 [0x48],                            -- MemoryAccessControl
   .cmd 0x3a [0x55],                            -- PixelFormatSet
   .cmd 0xb1 [0x00, 0x18],                      -- FrameControlNormal
   .cmd 0xb6 [0x08, 0x82, 0x27],                -- DisplayFunctionControl
   .cmd 0xf2 [0x00],                            -- Enable3G
   .cmd 0x26 [0x01],                            -- GammaSet
   .cmd 0xe0 [0x0f, 0x31, 0x2b, 0x0c, 0x0e, 0x08, 0x4e, 0xf1, 0x37, 0x07,
              0x10, 0x03, 0x0e, 0x09, 0x00],    -- PositiveGammaCorrection
   .cmd 0xe1 [0x00, 0x0e, 0x14, 0x03, 0x11, 0x07, 0x31, 0xc1, 0x48, 0x08,
              0x0f, 0x0c, 0x31, 0x36, 0x0f],    -- NegativeGammaCorrection
   .cmd 0x11 [],                                -- SleepOut
   .delayMs 120,
   .cmd 0x29 []]                                -- DisplayOn

/-- The display state `Ili9341::new` builds: `width: WIDTH, height: HEIGHT`,
never modified during construction. -/
def newState : DispState := ⟨WIDTH, HEIGHT⟩

/-- Arguments of every memory-access-control command (opcode 0x36) in a
trace, in order. -/
def macArgs (tr : List InitEv) : List (List Nat) :=
  tr.filterMap fun e =>
    match e with
    | .cmd 0x36 args => some args
    | _ => none

/-- The orientation register byte as the spec tabulates it, for comparing the
spec's orientation-dependent initialisation against the code. -/
def orientRegByte : Orientation → Nat
  | .Portrait => 0x48
  | .Landscape => 0x28
  | .PortraitFlipped => 0x88
  | .LandscapeFlipped => 0xE8

/-- The ordered opcode list of a trace (commands only). -/
def opcodes (tr : List InitEv) : List Nat :=
  tr.filterMap fun e =>
    match e with
    | .cmd op _ => some op
    | _ => none

/-- The reset-pin levels driven during a trace, in order. -/
def pinLevels (tr : List InitEv) : List Bool :=
  tr.filterMap fun e =>
    match e with
    | .resetPin b => some b
    | _ => none

/-! ### Window-addressed pixel write protocol (src/lib.rs) -/

/-- `Ili9341::set_window(x0, y0, x1, y1)`: column-address-set (0x2A) then
page-address-set (0x2B), each with the two coordinates split big-endian. -/
def set_window (x0 y0 x1 y1 : Nat) : List BusEv :=
  [.write 0x2a [beHi x0, beLo x0, beHi x1, beLo x1],
   .write 0x2b [beHi y0, beLo y0, beHi y1, beLo y1]]

/-- `Ili9341::draw_raw` / `Ili9341::draw_iter`: `set_window` followed by the
memory-write command (0x2C) with the pixel words. -/
def draw_raw (x0 y0 x1 y1 : Nat) (data : List Nat) : List BusEv :=
  set_window x0 y0 x1 y1 ++ [.writeIter 0x2c data]

/-- The SPI serialization of one `Interface` call on the success path
(src/spi.rs): the command byte in the command phase, then the data bytes —
for `write_iter` each 16-bit word is sent as `to_be_bytes`. -/
def spiFrame : BusEv → Nat × List Nat
  | .write c d => (c, d)
  | .writeIter c ws => (c, ws.flatMap beBytes)

/-! ### Serial transport with pin faults (src/spi.rs) -/

/-- The two error variants of `enum Error`. -/
inductive DriverErr where
  | interface
  | outputPin
  deriving DecidableEq, Repr

/-- Observable serial-transport state: the chip-select and command/data-select
levels (`true` = high) and the log of transmitted bytes, each tagged with the
levels of `dc` and `cs` while it was on the wire. -/
structure SpiSt where
  cs : Bool
  dc : Bool
  log : List (Nat × Bool × Bool)
  opIdx : Nat
  deriving DecidableEq, Repr

/-- Idle transport: both control lines released (high), nothing sent. -/
def spiIdle : SpiSt := ⟨true, true, [], 0⟩

/-- One pin-set primitive. The fault schedule `f` says which primitive
operations (counted in program order) fail; a failing set leaves the pin
level unchanged, matching the spec's reading of a pin error as "failed to
change state". -/
def pinSet (f : Nat → Bool) (s : SpiSt) (isCs level : Bool) : SpiSt × Option DriverErr :=
  if f s.opIdx then
    ({ s with opIdx := s.opIdx + 1 }, some .outputPin)
  else if isCs then
    ({ s with cs := level, opIdx := s.opIdx + 1 }, none)
  else
    ({ s with dc := level, opIdx := s.opIdx + 1 }, none)

/-- One `spi.write(bytes)` block transfer; logs each byte with the current
`dc`/`cs` levels. -/
def spiXfer (f : Nat → Bool) (s : SpiSt) (bs : List Nat) : SpiSt × Option DriverErr :=
  if f s.opIdx then
    ({ s with opIdx := s.opIdx + 1 }, some .interface)
  else
    ({ s with log := s.log ++ bs.map (fun b => (b, s.dc, s.cs)), opIdx := s.opIdx + 1 }, none)

/-- `SpiInterface::write` (src/spi.rs): cs low; dc low; send opcode; dc high;
send data; cs high — aborting at the first failing primitive. -/
def spiWrite (f : Nat → Bool) (s : SpiSt) (command : Nat) (data : List Nat) :
    SpiSt × Option DriverErr :=
  match pinSet f s true false with
  | (s1, some e) => (s1, some e)
  | (s1, none) =>
  match pinSet f s1 false false with
  | (s2, some e) => (s2, some e)
  | (s2, none) =>
  match spiXfer f s2 [command] with
  | (s3, some e) => (s3, some e)
  | (s3, none) =>
  match pinSet f s3 false true with
  | (s4, some e) => (s4, some e)
  | (s4, none) =>
  match spiXfer f s4 data with
  | (s5, some e) => (s5, some e)
  | (s5, none) =>
  match pinSet f s5 true true with
  | (s6, some e) => (s6, some e)
  | (s6, none) => (s6, none)

/-- The word-sending loop of `SpiInterface::write_iter`: one `spi.write` of
`to_be_bytes` per word, aborting on the first failure. -/
def spiWords (f : Nat → Bool) (s : SpiSt) (ws : List Nat) : SpiSt × Option DriverErr :=
  match ws with
  | [] => (s, none)
  | w :: rest =>
    match spiXfer f s (beBytes w) with
    | (s1, some e) => (s1, some e)
    | (s1, none) => spiWords f s1 rest

/-- `SpiInterface::write_iter` (src/spi.rs): same framing as `write`, the
data phase streaming each 16-bit word big-endian. -/
def spiWriteIter (f : Nat → Bool) (s : SpiSt) (command : Nat) (ws : List Nat) :
    SpiSt × Option DriverErr :=
  match pinSet f s true false with
  | (s1, some e) => (s1, some e)
  | (s1, none) =>
  match pinSet f s1 false false with
  | (s2, some e) => (s2, some e)
  | (s2, none) =>
  match spiXfer f s2 [command] with
  | (s3, some e) => (s3, some e)
  | (s3, none) =>
  match pinSet f s3 false true with
  | (s4, some e) => (s4, some e)
  | (s4, none) =>
  match spiWords f s4 ws with
  | (s5, some e) => (s5, some e)
  | (s5, none) =>
  match pinSet f s5 true true with
  | (s6, some e) => (s6, some e)
  | (s6, none) => (s6, none)

/-- Fault schedule failing exactly the primitive operation numbered `k`. -/
def failAt (k : Nat) : Nat → Bool := fun n => n == k

/-- The all-success fault schedule. -/
def noFail : Nat → Bool := fun _ => false

/-! ### Pixel-run batching adapter (impl Drawing for Ili9341, src/lib.rs) -/

/-- An embedded-graphics pixel: i32 point plus the 16-bit RawU16 color word. -/
structure Pix where
  x : Int
  y : Int
  color : Nat
  deriving DecidableEq, Repr

/-- One `draw_raw` call the adapter hands to the hardware. -/
structure DrawCall where
  x0 : Nat
  y0 : Nat
  x1 : Nat
  y1 : Nat
  data : List Nat
  deriving DecidableEq, Repr

/-- `x as u16` on an i32 value. -/
def toU16 (x : Int) : Nat := (x % 65536).toNat

/-- `const BUF_SIZE: usize = 32`. -/
def BUF_SIZE : Nat := 32

/-- Loop state of `Drawing::draw`: the filled prefix `row[0..i]` of the run
buffer (so `buf.length` is the fill count `i`) and the run-tracking
variables. -/
structure BatchSt where
  buf : List Nat
  startx : Int
  lasty : Int
  endx : Int
  deriving DecidableEq, Repr

/-- The contiguity test of the loop:
`i == 0 || (pos.y == lasty && pos.x == endx + 1 && i < BUF_SIZE - 1)`. -/
def contig (s : BatchSt) (p : Pix) : Prop :=
  s.buf.length = 0 ∨ (p.y = s.lasty ∧ p.x = s.endx + 1 ∧ s.buf.length < BUF_SIZE - 1)

instance (s : BatchSt) (p : Pix) : Decidable (contig s p) := by
  unfold contig; infer_instance

/-- The `draw_raw` call flushing the current buffer:
`(startx, lasty)` to `(endx, lasty)` with `row[0..i]`. -/
def flushCall (s : BatchSt) : DrawCall :=
  ⟨toU16 s.startx, toU16 s.lasty, toU16 s.endx, toU16 s.lasty, s.buf⟩

/-- One iteration of the pixel loop: either extend the current run, or flush
it and start a new run with the current pixel. -/
def stepB (s : BatchSt) (p : Pix) : List DrawCall × BatchSt :=
  if contig s p then
    ([], ⟨s.buf ++ [p.color],
          if s.buf.length = 0 then p.x else s.startx, p.y, p.x⟩)
  else
    ([flushCall s], ⟨[p.color], p.x, p.y, p.x⟩)

/-- The whole loop plus the final `if i > 0` flush. -/
def runB (s : BatchSt) : List Pix → List DrawCall
  | [] => if s.buf.length = 0 then [] else [flushCall s]
  | p :: ps =>
    let r := stepB s p
    r.fst ++ runB r.snd ps

/-- The off-screen filter applied before the loop:
`x >= 0 && y >= 0 && x < width && y < height`. -/
def onScreen (width height : Int) (p : Pix) : Bool :=
  decide (0 ≤ p.x) && decide (0 ≤ p.y) && decide (p.x < width) && decide (p.y < height)

/-- Initial loop state: empty buffer, `lasty = startx = endx = 0`. -/
def initB : BatchSt := ⟨[], 0, 0, 0⟩

/-- `Drawing::draw for Ili9341`: filter the stream to on-screen pixels, then
run the batching loop; returns the list of hardware draw calls issued. -/
def drawBatch (width height : Int) (ps : List Pix) : List DrawCall :=
  runB initB (ps.filter (onScreen width height))

/-! ### set_orientation with a fallible bus (src/lib.rs) -/

/-- `Ili9341::set_orientation` threaded through a fallible bus and an explicit
hardware memory-access-control register: the dimension fields are assigned,
then the command is issued; when the bus reports a fault the register is left
unchanged and the error is returned as-is. -/
def setOrientationFallible (s : DispState) (hwReg : Nat) (mode : Orientation)
    (busErr : Option DriverErr) : DispState × Nat × Option DriverErr :=
  let r := set_orientation s mode
  match busErr with
  | some e => (r.fst, hwReg, some e)
  | none =>
    match r.snd with
    | .write _ args => (r.fst, args.headI, none)
    | .writeIter _ _ => (r.fst, hwReg, none)

/-! ### Scroll controller -/

/-- Modelled from the spec: the repository revision under src/ has no scroll
controller (`configure_scroll` / `scroll_by` exist only in other historical
revisions), so the Scroller record follows §3 of the spec: `top_offset`,
`fixed_top_lines`, `fixed_bottom_lines` and the captured long-axis
`height`. -/
structure Scroller where
  top_offset : Nat
  fixed_top_lines : Nat
  fixed_bottom_lines : Nat
  height : Nat
  deriving DecidableEq, Repr

/-- Modelled from the spec: `scroll_by(scroller, n)` advances
`top_offset += n`; if this exceeds `height − fixed_bottom_lines`, it wraps to
`fixed_top_lines + (top_offset − height + fixed_bottom_lines)` (the sum is
computed over the integers; the subtraction is grouped as
`top_offset + fixed_bottom_lines − height`, nonnegative exactly when the wrap
branch is taken). -/
def scroll_by (s : Scroller) (n : Nat) : Scroller :=
  let t := s.top_offset + n
  if s.height - s.fixed_bottom_lines < t then
    { s with top_offset := s.fixed_top_lines + (t + s.fixed_bottom_lines - s.height) }
  else
    { s with top_offset := t }

/-! ## Theorems -/

/-- The resulting dimensions of `set_orientation` depend on the mode alone:
landscape-class modes store the swapped native pair, portrait-class modes the
native pair. -/
lemma set_orientation_fst (s : DispState) (m : Orientation) :
    (set_orientation s m).fst = if landClass m then swapDims newState else newState := by
  cases m <;> rfl

/-- Claim C1, counterexample: the register sequence of `Ili9341::new` issues
the memory-access-control command with the fixed byte 0x48, which is not the
register byte of a caller requesting Landscape — construction cannot apply a
requested orientation (it takes none). -/
theorem c1_counterexample :
    macArgs newTrace = [[0x48]] ∧
    [[0x48]] ≠ [[orientRegByte Orientation.Landscape]] := by
  constructor
  · rfl
  · decide

/-- Claim C1 (amended): construction is `new(interface, reset, delay)` with no
orientation or size parameter; its fixed register sequence issues the
memory-access-control command exactly once, with the fixed Portrait register
byte 0x48, and establishes the initial width/height as the native portrait
240×320. -/
theorem c1_new_fixed_portrait :
    macArgs newTrace = [[orientRegByte Orientation.Portrait]] ∧
    newState.width = 240 ∧ newState.height = 320 := by
  refine ⟨rfl, rfl, rfl⟩

/-- Claim C2: every `set_orientation(mode)` call issues the
memory-access-control command with the mode's register byte (Portrait 0x48,
Landscape 0x28, PortraitFlipped 0x88, LandscapeFlipped 0xE8); after any
nonempty call sequence the stored dimensions are the native 240×320 with
exactly one swap applied when the final mode is landscape-class; and a call
swaps the stored pair iff its landscape-class differs from the stored pair's
class, so repeated same-class calls leave dimensions unchanged. -/
theorem c2_set_orientation_spec :
    (∀ s m, (set_orientation s m).snd = BusEv.write 0x36 [orientRegByte m]) ∧
    (∀ (ms : List Orientation) (m : Orientation),
      applySeq newState (ms ++ [m]) =
        if landClass m then swapDims newState else newState) ∧
    (∀ s m, s = newState ∨ s = swapDims newState →
      (set_orientation s m).fst =
        if landClass m = dimsClass s then s else swapDims s) := by
  refine ⟨?_, ?_, ?_⟩
  · intro s m
    cases m <;> rfl
  · intro ms m
    unfold applySeq
    rw [List.foldl_append]
    simp [List.foldl, set_orientation_fst]
  · intro s m hs
    rcases hs with h | h <;> subst h <;> cases m <;> decide

/-- Witness for Claim C2: applying Portrait from the landscape-class pair
swaps back to the native portrait pair. -/
theorem c2_set_orientation_spec_witness :
    (set_orientation (swapDims newState) Orientation.Portrait).fst = newState := by
  have h := c2_set_orientation_spec.2.2 (swapDims newState) Orientation.Portrait
    (Or.inr rfl)
  simpa using h

/-- Claim C6, counterexample: in the emitted command sequence the gamma
tuning commands come after pixel-format-set — the positive-gamma-correction
opcode 0xE0 is emitted, but pixel-format-set 0x3A precedes it, so the claimed
order "power/gamma tuning commands, memory-access-control, pixel-format-set"
does not hold. -/
theorem c6_counterexample :
    0xe0 ∈ opcodes newTrace ∧
    (opcodes newTrace).indexOf 0x3a < (opcodes newTrace).indexOf 0xe0 := by
  decide

/-- Claim C6 (amended): initialization emits, in order, the hardware reset on
the pin (high, low, high), software-reset followed by a 200 ms wait (≥120 ms),
the power-control tuning commands, memory-access-control, pixel-format-set
with argument byte 0x55, then the frame/display-function and gamma tuning
commands, sleep-out followed by a 120 ms wait (≥5 ms), and display-on last. -/
theorem c6_init_sequence :
    opcodes newTrace = [0x01, 0xcb, 0xcf, 0xe8, 0xea, 0xed, 0xf7, 0xc0, 0xc1,
      0xc5, 0xc7, 0x36, 0x3a, 0xb1, 0xb6, 0xf2, 0x26, 0xe0, 0xe1, 0x11, 0x29] ∧
    pinLevels newTrace = [true, false, true] ∧
    newTrace[newTrace.indexOf (InitEv.cmd 0x01 []) + 1]? = some (.delayMs 200) ∧
    120 ≤ 200 ∧
    InitEv.cmd 0x3a [0x55] ∈ newTrace ∧
    newTrace[newTrace.indexOf (InitEv.cmd 0x11 []) + 1]? = some (.delayMs 120) ∧
    5 ≤ 120 ∧
    (opcodes newTrace).getLast? = some 0x29 := by
  decide

/-- Claim C3: a rectangle draw serializes to exactly three bus frames —
column-address-set (0x2A) with big-endian 16-bit x0 then x1, row-address-set
(0x2B) with big-endian 16-bit y0 then y1, and memory-write (0x2C) followed by
each pixel word split into two big-endian bytes — and nothing else. -/
theorem c3_draw_rectangle_traffic :
    ∀ (x0 y0 x1 y1 : Nat) (ws : List Nat),
      x0 < 65536 → y0 < 65536 → x1 < 65536 → y1 < 65536 →
      (draw_raw x0 y0 x1 y1 ws).map spiFrame =
        [(0x2a, [x0 / 256, x0 % 256, x1 / 256, x1 % 256]),
         (0x2b, [y0 / 256, y0 % 256, y1 / 256, y1 % 256]),
         (0x2c, ws.flatMap beBytes)] := by
  intro x0 y0 x1 y1 ws h0 h1 h2 h3
  have e0 : x0 / 256 % 256 = x0 / 256 := Nat.mod_eq_of_lt (by omega)
  have e1 : y0 / 256 % 256 = y0 / 256 := Nat.mod_eq_of_lt (by omega)
  have e2 : x1 / 256 % 256 = x1 / 256 := Nat.mod_eq_of_lt (by omega)
  have e3 : y1 / 256 % 256 = y1 / 256 := Nat.mod_eq_of_lt (by omega)
  simp [draw_raw, set_window, spiFrame, beHi, beLo, e0, e1, e2, e3]

/-- Witness for Claim C3: `draw_rectangle(0,0,9,0,[c0..c9])` emits
column-address-set(0,9), row-address-set(0,0), memory-write, then the ten
big-endian words. -/
theorem c3_draw_rectangle_traffic_witness :
    (draw_raw 0 0 9 0 [0xa0, 0xa1, 0xa2, 0xa3, 0xa4, 0xa5, 0xa6, 0xa7, 0xa8,
      0xa9]).map spiFrame =
      [(0x2a, [0, 0, 0, 9]),
       (0x2b, [0, 0, 0, 0]),
       (0x2c, [0, 0xa0, 0, 0xa1, 0, 0xa2, 0, 0xa3, 0, 0xa4, 0, 0xa5, 0, 0xa6,
               0, 0xa7, 0, 0xa8, 0, 0xa9])] := by
  have h := c3_draw_rectangle_traffic 0 0 9 0
    [0xa0, 0xa1, 0xa2, 0xa3, 0xa4, 0xa5, 0xa6, 0xa7, 0xa8, 0xa9]
    (by decide) (by decide) (by decide) (by decide)
  exact h.trans (by decide)

/-- The word loop of `write_iter` without faults: it appends the big-endian
bytes of every word to the log, tagged with the current control-line levels,
and succeeds. -/
lemma spiWords_noFail (ws : List Nat) :
    ∀ s : SpiSt, spiWords noFail s ws =
      (⟨s.cs, s.dc, s.log ++ (ws.flatMap beBytes).map (fun b => (b, s.dc, s.cs)),
        s.opIdx + ws.length⟩, none) := by
  induction ws with
  | nil => intro s; simp [spiWords]
  | cons w rest ih =>
    intro s
    show spiWords noFail
      ⟨s.cs, s.dc, s.log ++ (beBytes w).map (fun b => (b, s.dc, s.cs)), s.opIdx + 1⟩ rest = _
    rw [ih]
    simp only [beBytes, List.flatMap_cons, List.map_append, List.append_assoc]
    have h : s.opIdx + 1 + rest.length = s.opIdx + (w :: rest).length := by
      simp only [List.length_cons]; omega
    rw [h]

/-- `write_iter` without faults: opcode byte in the command phase, then all
words big-endian in the data phase, chip-select released at the end. -/
lemma spiWriteIter_noFail (c : Nat) (ws : List Nat) :
    spiWriteIter noFail spiIdle c ws =
      (⟨true, true, (c, false, false) :: (ws.flatMap beBytes).map (fun b => (b, true, false)),
        5 + ws.length⟩, none) := by
  show (match spiWords noFail ⟨false, true, [(c, false, false)], 4⟩ ws with
        | (s5, some e) => (s5, some e)
        | (s5, none) =>
          match pinSet noFail s5 true true with
          | (s6, some e) => (s6, some e)
          | (s6, none) => (s6, none)) = _
  rw [spiWords_noFail]
  show ((⟨true, true, (c, false, false) :: (ws.flatMap beBytes).map (fun b => (b, true, false)),
      4 + ws.length + 1⟩, none) : SpiSt × Option DriverErr) =
    (⟨true, true, (c, false, false) :: (ws.flatMap beBytes).map (fun b => (b, true, false)),
      5 + ws.length⟩, none)
  have h : 4 + ws.length + 1 = 5 + ws.length := by omega
  rw [h]

/-- Claim C7, counterexample: fail exactly the first primitive operation (the
initial chip-select assertion; the final one is numbered 5). The call returns
the OutputPin error, yet chip-select is left high — the bus is deselected
although the failing step is not the final one. -/
theorem c7_counterexample :
    (spiWrite (failAt 0) spiIdle 0x2a [7, 8]).snd = some DriverErr.outputPin ∧
    (spiWrite (failAt 0) spiIdle 0x2a [7, 8]).fst.cs = true ∧
    failAt 0 5 = false := by
  decide

/-- Claim C7 (amended): each serial-transport call frames as chip-select low,
command/data-select low with the opcode byte, command/data-select high with
the data bytes, chip-select high; any pin-set failure aborts mid-sequence
returning the OutputPin error variant, and on error the bus is left
deselected only when the initial chip-select assertion itself fails — any
later failure, including of the final deselect step, leaves the bus
selected. -/
theorem c7_serial_framing :
    (∀ c d, (spiWrite noFail spiIdle c d).snd = none ∧
      (spiWrite noFail spiIdle c d).fst.log =
        (c, false, false) :: d.map (fun b => (b, true, false)) ∧
      (spiWrite noFail spiIdle c d).fst.cs = true) ∧
    (∀ c ws, (spiWriteIter noFail spiIdle c ws).snd = none ∧
      (spiWriteIter noFail spiIdle c ws).fst.log =
        (c, false, false) :: (ws.flatMap beBytes).map (fun b => (b, true, false)) ∧
      (spiWriteIter noFail spiIdle c ws).fst.cs = true) ∧
    (∀ c d, (spiWrite (failAt 0) spiIdle c d).snd = some DriverErr.outputPin ∧
      (spiWrite (failAt 0) spiIdle c d).fst.log = [] ∧
      (spiWrite (failAt 0) spiIdle c d).fst.cs = true) ∧
    (∀ c d, (spiWrite (failAt 1) spiIdle c d).snd = some DriverErr.outputPin ∧
      (spiWrite (failAt 1) spiIdle c d).fst.log = [] ∧
      (spiWrite (failAt 1) spiIdle c d).fst.cs = false) ∧
    (∀ c d, (spiWrite (failAt 3) spiIdle c d).snd = some DriverErr.outputPin ∧
      (spiWrite (failAt 3) spiIdle c d).fst.log = [(c, false, false)] ∧
      (spiWrite (failAt 3) spiIdle c d).fst.cs = false) ∧
    (∀ c d, (spiWrite (failAt 5) spiIdle c d).snd = some DriverErr.outputPin ∧
      (spiWrite (failAt 5) spiIdle c d).fst.cs = false) := by
  refine ⟨?_, ?_, ?_, ?_, ?_, ?_⟩
  · intro c d; exact ⟨rfl, rfl, rfl⟩
  · intro c ws
    rw [spiWriteIter_noFail]
    exact ⟨rfl, rfl, rfl⟩
  · intro c d; exact ⟨rfl, rfl, rfl⟩
  · intro c d; exact ⟨rfl, rfl, rfl⟩
  · intro c d; exact ⟨rfl, rfl, rfl⟩
  · intro c d; exact ⟨rfl, rfl⟩

/-- Claim C9: `set_orientation` assigns the stored dimensions before issuing
the memory-access-control write, so when the bus write fails the call returns
the error while width/height already hold the newly requested orientation's
dimensions and the hardware register is unchanged; on success the register
takes the mode's byte. -/
theorem c9_set_orientation_error_state :
    ∀ (s : DispState) (hwReg : Nat) (m : Orientation) (e : DriverErr),
      (setOrientationFallible s hwReg m (some e)).2.2 = some e ∧
      (setOrientationFallible s hwReg m (some e)).2.1 = hwReg ∧
      (setOrientationFallible s hwReg m (some e)).1 =
        (if landClass m then swapDims newState else newState) ∧
      (setOrientationFallible s hwReg m none).2.1 = orientRegByte m := by
  intro s hwReg m e
  cases m <;> exact ⟨rfl, rfl, rfl, rfl⟩

/-- Claim C4: the batching adapter flushes a nonempty run exactly on a
discontinuity (row change, x-gap, or buffer full), as a single draw call
spanning `(startx, lasty)` to `(endx, lasty)` with the buffered words; any
remaining run is flushed at stream end; and the claim's four-pixel example
yields exactly the two stated draw calls. -/
theorem c4_pixel_run_batching :
    (∀ (s : BatchSt) (p : Pix), s.buf ≠ [] →
      ((stepB s p).fst = [flushCall s] ↔
        ¬ (p.y = s.lasty ∧ p.x = s.endx + 1 ∧ s.buf.length < BUF_SIZE - 1)) ∧
      ((stepB s p).fst = [] ↔
        (p.y = s.lasty ∧ p.x = s.endx + 1 ∧ s.buf.length < BUF_SIZE - 1))) ∧
    (∀ s : BatchSt, s.buf ≠ [] → runB s [] = [flushCall s]) ∧
    (∀ red blue : Nat,
      drawBatch 240 320 [⟨0, 5, red⟩, ⟨1, 5, red⟩, ⟨2, 5, red⟩, ⟨5, 5, blue⟩] =
        [⟨0, 5, 2, 5, [red, red, red]⟩, ⟨5, 5, 5, 5, [blue]⟩]) := by
  refine ⟨?_, ?_, ?_⟩
  · intro s p hbuf
    have hlen : ¬ s.buf.length = 0 := by simpa using hbuf
    by_cases hc : p.y = s.lasty ∧ p.x = s.endx + 1 ∧ s.buf.length < BUF_SIZE - 1
    · have hco : contig s p := Or.inr hc
      rw [stepB, if_pos hco]
      constructor
      · simp [hc]
      · simp [hc]
    · have hco : ¬ contig s p := by
        intro h
        rcases h with h | h
        · exact hlen h
        · exact hc h
      rw [stepB, if_neg hco]
      constructor
      · simp [hc]
      · simp [hc]
  · intro s hbuf
    have hlen : ¬ s.buf.length = 0 := by simpa using hbuf
    rw [runB, if_neg hlen]
  · intro red blue
    rfl

/-- Witness for Claim C4: a one-pixel run at `(0..2, 5)`-state is flushed by
the non-adjacent pixel `(5, 5)`, and a pending run is flushed at stream
end. -/
theorem c4_pixel_run_batching_witness :
    (stepB ⟨[7], 0, 5, 2⟩ ⟨5, 5, 9⟩).fst = [flushCall ⟨[7], 0, 5, 2⟩] ∧
    runB ⟨[7], 0, 5, 2⟩ [] = [flushCall ⟨[7], 0, 5, 2⟩] := by
  have h1 := (c4_pixel_run_batching.1 ⟨[7], 0, 5, 2⟩ ⟨5, 5, 9⟩ (by decide)).1
  have h2 := c4_pixel_run_batching.2.1 ⟨[7], 0, 5, 2⟩ (by decide)
  exact ⟨h1.mpr (by decide), h2⟩

/-- Claim C5: the adapter's output only depends on the on-screen part of the
stream — filtering off-screen pixels first changes nothing — and on a 240×320
panel a pixel at `(240, 0)` or `(-1, 0)` produces no draw call at all. -/
theorem c5_offscreen_filtering :
    (∀ (w h : Int) (ps : List Pix),
      drawBatch w h ps = drawBatch w h (ps.filter (onScreen w h))) ∧
    (∀ c : Nat,
      drawBatch 240 320 [⟨240, 0, c⟩] = [] ∧ drawBatch 240 320 [⟨-1, 0, c⟩] = []) := by
  constructor
  · intro w h ps
    unfold drawBatch
    rw [List.filter_filter]
    congr 1
    simp
  · intro c
    exact ⟨rfl, rfl⟩

/-- Every draw call emitted by the batching loop carries at most 31 pixel
words, provided the incoming buffer already does. -/
lemma runB_data_le (ps : List Pix) :
    ∀ s : BatchSt, s.buf.length ≤ 31 →
      ∀ d ∈ runB s ps, d.data.length ≤ 31 := by
  induction ps with
  | nil =>
    intro s hs d hd
    rw [runB] at hd
    by_cases h0 : s.buf.length = 0
    · rw [if_pos h0] at hd
      simp at hd
    · rw [if_neg h0] at hd
      simp at hd
      subst hd
      exact hs
  | cons p ps ih =>
    intro s hs d hd
    rw [runB] at hd
    rcases List.mem_append.mp hd with hl | hr
    · by_cases hc : contig s p
      · rw [stepB, if_pos hc] at hl
        simp at hl
      · rw [stepB, if_neg hc] at hl
        simp at hl
        subst hl
        exact hs
    · by_cases hc : contig s p
      · rw [stepB, if_pos hc] at hr
        refine ih _ ?_ d hr
        simp only [List.length_append, List.length_cons, List.length_nil]
        rcases hc with h0 | ⟨_, _, hlt⟩
        · omega
        · have : BUF_SIZE - 1 = 31 := by decide
          omega
      · rw [stepB, if_neg hc] at hr
        exact ih _ (by norm_num) d hr

/-- Claim C10: every hardware draw call emitted by the batching adapter spans
at most 31 pixels, and a 32nd contiguous pixel triggers a flush of the
preceding 31-pixel run followed by a fresh one-pixel run. -/
theorem c10_buffer_cap :
    (∀ (w h : Int) (ps : List Pix) (d : DrawCall),
      d ∈ drawBatch w h ps → d.data.length ≤ 31) ∧
    drawBatch 240 320 ((List.range 32).map fun k => ⟨k, 0, 7⟩) =
      [⟨0, 0, 30, 0, List.replicate 31 7⟩, ⟨31, 0, 31, 0, [7]⟩] := by
  constructor
  · intro w h ps d hd
    exact runB_data_le _ initB (by decide) d hd
  · decide

/-- Witness for Claim C10: the 31-word run emitted for 32 contiguous pixels
respects the bound. -/
theorem c10_buffer_cap_witness :
    ∃ d : DrawCall,
      d ∈ drawBatch 240 320 ((List.range 32).map fun k => ⟨k, 0, 7⟩) ∧
      d.data.length ≤ 31 := by
  refine ⟨⟨31, 0, 31, 0, [7]⟩, ?_, ?_⟩
  · rw [c10_buffer_cap.2]
    simp
  · exact c10_buffer_cap.1 240 320 ((List.range 32).map fun k => ⟨k, 0, 7⟩)
      ⟨31, 0, 31, 0, [7]⟩ (by rw [c10_buffer_cap.2]; simp)

/-- Claim C8 (modelled from the spec, no scroll code under src/): `scroll_by`
advances `top_offset` by `n` and wraps once past `height − fixed_bottom`,
which coincides with advancing modulo the scrollable band re-anchored at
`fixed_top` whenever at most one wrap occurs and the result does not land
exactly on the band boundary; the spec's example `fixed_top = 10,
fixed_bottom = 10, height = 320, top_offset = 10, scroll_by 305` yields 15. -/
theorem c8_scroll_by_wrap :
    (scroll_by ⟨10, 10, 10, 320⟩ 305).top_offset = 15 ∧
    (∀ ft fb hgt r n : Nat,
      ft + fb ≤ hgt →
      r < hgt - ft - fb →
      r + n < 2 * (hgt - ft - fb) →
      r + n ≠ hgt - ft - fb →
      (scroll_by ⟨ft + r, ft, fb, hgt⟩ n).top_offset =
        ft + (r + n) % (hgt - ft - fb)) := by
  constructor
  · rfl
  · intro ft fb hgt r n h1 h2 h3 h4
    unfold scroll_by
    dsimp only
    rcases Nat.lt_or_ge (hgt - fb) (ft + r + n) with hw | hw
    · rw [if_pos hw]
      have hmod : (r + n) % (hgt - ft - fb) = r + n - (hgt - ft - fb) := by
        rw [Nat.mod_eq_sub_mod (by omega)]
        exact Nat.mod_eq_of_lt (by omega)
      simp only [hmod]
      omega
    · rw [if_neg (by omega)]
      have hmod : (r + n) % (hgt - ft - fb) = r + n := Nat.mod_eq_of_lt (by omega)
      simp only [hmod]
      omega

/-- Witness for Claim C8: the spec's concrete wraparound example through the
general modulo form. -/
theorem c8_scroll_by_wrap_witness :
    (scroll_by ⟨10 + 0, 10, 10, 320⟩ 305).top_offset = 10 + (0 + 305) % 300 := by
  have h := c8_scroll_by_wrap.2 10 10 320 0 305 (by decide) (by decide) (by decide)
    (by decide)
  simpa using h

end Ili9341
